import Mathlib

/-!
Verification of `nodes/object_nodes/getsetprop_mk2.py`: the property-path
get/set nodes.  Python strings are modelled as `List Char`, Python numbers as
`Int`/`Rat`, fallible Python code as `Except PyErr`.  Host (Blender) values
reachable through a property path are modelled by the universal value type
`Py` below; the live object graph rooted at the module globals is modelled as
an association list from names to `Py` trees, and in-place mutation is
modelled as a functional update along the resolved path.
-/

namespace GetSetPropMK2

/-- Python exception kinds raised by the code paths modelled in this file. -/
inductive PyErr where
  | nameError
  | attrError
  | typeError
  | keyError
  | indexError
  | valueError
  | syntaxError
deriving DecidableEq

/-- Model of Python `s.startswith(t)`. -/
def strStartsWith : List Char → List Char → Bool
  | _, [] => true
  | [], _ :: _ => false
  | c :: cs, d :: ds => c == d && strStartsWith cs ds

/-- Model of Python `s.endswith(t)`. -/
def strEndsWith (s t : List Char) : Bool :=
  strStartsWith s.reverse t.reverse

/-- Model of Python `s.replace(old, new, 1)`: replace only the first
occurrence of `old` in `s` (scanning left to right). -/
def replaceFirst : List Char → List Char → List Char → List Char
  | [], old, new =>
    if strStartsWith [] old then new ++ List.drop old.length [] else []
  | c :: cs, old, new =>
    if strStartsWith (c :: cs) old then new ++ List.drop old.length (c :: cs)
    else c :: replaceFirst cs old new

/-- The `aliases` dict of the module, in Python insertion order (Python
dicts iterate in insertion order). -/
def aliases : List (List Char × List Char) :=
  [("c".data, "bpy.context".data),
   ("C".data, "bpy.context".data),
   ("scene".data, "bpy.context.scene".data),
   ("data".data, "bpy.data".data),
   ("D".data, "bpy.data".data),
   ("objs".data, "bpy.data.objects".data),
   ("mats".data, "bpy.data.materials".data),
   ("M".data, "bpy.data.materials".data),
   ("meshes".data, "bpy.data.meshes".data),
   ("texts".data, "bpy.data.texts".data)]

/-- The alias for-loop of `apply_alias`: the first alias (in dict order)
whose token is a prefix of the string, if any (the loop `break`s after the
first match). -/
def findAlias (s : List Char) : List (List Char × List Char) → Option (List Char × List Char)
  | [] => none
  | (a, e) :: rest => if strStartsWith s a then some (a, e) else findAlias s rest

/-- The value held by `eval_str` in `apply_alias` after the alias loop has
run (before the final `bpy.` check). -/
def alias_expansion (s : List Char) : List Char :=
  if strStartsWith s "bpy.".data then s
  else
    match findAlias s aliases with
    | some (a, e) => replaceFirst s a e
    | none => s

/-- `apply_alias`: return the string unchanged if it already starts with
`bpy.`; otherwise substitute the first matching alias via
`str.replace(alias, expanded, 1)` and raise `NameError` unless the result
starts with `bpy.`. -/
def apply_alias (s : List Char) : Except PyErr (List Char) :=
  if strStartsWith s "bpy.".data then .ok s
  else
    let s2 :=
      match findAlias s aliases with
      | some (a, e) => replaceFirst s a e
      | none => s
    if strStartsWith s2 "bpy.".data then .ok s2 else .error .nameError

/-- Keys usable in a Python subscript `obj[key]` on the paths this module
builds: numeric literals and string literals. -/
inductive PKey where
  | num (n : Int)
  | strK (s : List Char)
deriving DecidableEq

/-- Universal model of the Python/host values this module manipulates.
`vec`/`col`/`mat`/`eul`/`quat` model the mathutils types (components as
exact rationals standing in for the host's floats), `arr` models
`bpy_prop_array` (with its optional `path_from_id()` result), `hobj` models
a host data-block with named attributes and subscriptable items, and
`list`/`tup`/`int`/`float`/`str`/`none_` model the plain Python values. -/
inductive Py where
  | int (n : Int)
  | float (q : Rat)
  | str (s : List Char)
  | vec (cs : List Rat)
  | col (cs : List Rat)
  | mat (rows : List (List Rat))
  | eul (cs : List Rat) (order : List Char)
  | quat (cs : List Rat)
  | arr (cs : List Rat) (path_from_id : Option (List Char))
  | list (xs : List Py)
  | tup (xs : List Py)
  | hobj (attrs : List (List Char × Py)) (items : List (PKey × Py))
  | none_

/-- `is_probably_color`: a `bpy_prop_array` that has a `path_from_id`
(modelled by the Option being `some`) ending in `color`.  The Python
function returns `True` or `None`; modelled as a Bool. -/
def is_probably_color : Py → Bool
  | .arr _ (some pid) => strEndsWith pid ("color".data)
  | _ => false

/-- Truncated Taylor stand-in for the host's floating-point sine.  This
models the numeric behaviour of the external mathutils library only (exact
trigonometry is not representable over ℚ); no theorem in this file depends
on its values. -/
def msin (x : Rat) : Rat := x - x ^ 3 / 6 + x ^ 5 / 120 - x ^ 7 / 5040

/-- Truncated Taylor stand-in for the host's floating-point cosine (see
`msin`). -/
def mcos (x : Rat) : Rat := 1 - x ^ 2 / 2 + x ^ 4 / 24 - x ^ 6 / 720

/-- Model of the external `mathutils.Euler.to_matrix()` (3x3 rotation from
Euler angles, XYZ composition, trigonometry via the stand-ins above).  No
theorem in this file depends on its entries. -/
def euler_to_mat3 (cs : List Rat) (_ord : List Char) : List (List Rat) :=
  let x := cs.getD 0 0
  let y := cs.getD 1 0
  let z := cs.getD 2 0
  [[mcos y * mcos z, msin x * msin y * mcos z - mcos x * msin z,
      mcos x * msin y * mcos z + msin x * msin z],
   [mcos y * msin z, msin x * msin y * msin z + mcos x * mcos z,
      mcos x * msin y * msin z - msin x * mcos z],
   [-msin y, msin x * mcos y, mcos x * mcos y]]

/-- Model of the external `mathutils.Quaternion.to_matrix()` (the standard
polynomial rotation matrix of a unit quaternion).  No theorem in this file
depends on its entries. -/
def quat_to_mat3 (cs : List Rat) : List (List Rat) :=
  let w := cs.getD 0 0
  let x := cs.getD 1 0
  let y := cs.getD 2 0
  let z := cs.getD 3 0
  [[1 - 2 * (y * y + z * z), 2 * (x * y - w * z), 2 * (x * z + w * y)],
   [2 * (x * y + w * z), 1 - 2 * (x * x + z * z), 2 * (y * z - w * x)],
   [2 * (x * z - w * y), 2 * (y * z + w * x), 1 - 2 * (x * x + y * y)]]

/-- Model of the external `mathutils.Matrix.to_4x4()`. -/
def to_4x4 (m : List (List Rat)) : List (List Rat) :=
  match m with
  | [r0, r1, r2] => [r0 ++ [0], r1 ++ [0], r2 ++ [0], [0, 0, 0, 1]]
  | _ => m

/-- The comprehension `[r[:] for r in tvar[:]]` over a matrix: a list of
tuples of component floats, one per row. -/
def rows_to_tuples (rows : List (List Rat)) : List Py :=
  rows.map fun r => Py.tup (r.map Py.float)

/-- Model of the external `mathutils.Matrix.to_euler(order)` (inverse
trigonometry in the host; stand-in value, no theorem depends on it). -/
def mat_to_euler (_rows : List (List Rat)) (_ord : List Char) : List Rat :=
  [0, 0, 0]

/-- Model of the external `mathutils.Matrix.to_quaternion()` (square roots
in the host; stand-in value, no theorem depends on it). -/
def mat_to_quat (_rows : List (List Rat)) : List Rat :=
  [1, 0, 0, 0]

/-- `wrap_output_data`: create socket data from a resolved value.  Each arm
mirrors one isinstance branch of the source; the final arms are the `else:
data = tvar` fall-through.  `tvar[:]` on a Vector yields a tuple of floats,
`Color(tvar)`/`Matrix(tvar)` are copies, and an Euler/Quaternion is first
converted to a 4x4 matrix and then to rows of component tuples. -/
def wrap_output_data (tvar : Py) : Py :=
  match tvar with
  | .vec cs => .list [.list [.tup (cs.map Py.float)]]
  | .col cs => .list [.list [.col cs]]
  | .arr cs pid =>
    if is_probably_color (.arr cs pid) then .list [.list [.col (cs.take 3)]]
    else .arr cs pid
  | .mat rows => .list [.list [.mat rows]]
  | .eul cs ord => .list [.list (rows_to_tuples (to_4x4 (euler_to_mat3 cs ord)))]
  | .quat cs => .list [.list (rows_to_tuples (to_4x4 (quat_to_mat3 cs)))]
  | .list xs => .list [.list xs]
  | .int n => .list [.list [.int n]]
  | .float q => .list [.list [.float q]]
  | .str s => .str s
  | .tup xs => .tup xs
  | .hobj attrs items => .hobj attrs items
  | .none_ => .none_

/-- Convert a list of Python values to floats, as mathutils does when a
sequence is assigned into a vector-like slice (ints coerce, anything else
is a type error). -/
def seq_floats : List Py → Option (List Rat)
  | [] => some []
  | .float q :: rest => (seq_floats rest).map (q :: ·)
  | .int n :: rest => (seq_floats rest).map (((n : Rat)) :: ·)
  | _ => none

/-- A Python value viewed as a flat sequence of floats (used by slice
assignment into Vector/Color/Euler/Quaternion targets). -/
def as_float_seq : Py → Option (List Rat)
  | .tup xs => seq_floats xs
  | .list xs => seq_floats xs
  | .vec cs => some cs
  | .col cs => some cs
  | .quat cs => some cs
  | .eul cs _ => some cs
  | .arr cs _ => some cs
  | _ => none

/-- A Python value viewed as a sequence of items (iteration protocol):
lists and tuples yield their elements, a Matrix yields its rows as Vectors,
the flat mathutils types yield their component floats. -/
def py_seq_items : Py → Option (List Py)
  | .list xs => some xs
  | .tup xs => some xs
  | .mat rows => some (rows.map Py.vec)
  | .vec cs => some (cs.map Py.float)
  | .col cs => some (cs.map Py.float)
  | .quat cs => some (cs.map Py.float)
  | .eul cs _ => some (cs.map Py.float)
  | .arr cs _ => some (cs.map Py.float)
  | _ => none

/-- Column count of a (rectangular) matrix model. -/
def mat_cols : List (List Rat) → Nat
  | [] => 0
  | r :: _ => r.length

/-- Each item of a sequence converted to a row of floats. -/
def rows_as_floats : List Py → Option (List (List Rat))
  | [] => some []
  | x :: rest =>
    match as_float_seq x, rows_as_floats rest with
    | some r, some rs => some (r :: rs)
    | _, _ => none

/-- Model of mathutils matrix slice assignment `obj[:] = value`: `value`
must be a sequence with exactly one row per matrix row (else ValueError),
each item convertible to a float row of the right width. -/
def mat_slice_assign (rows : List (List Rat)) (value : Py) : Except PyErr Py :=
  match py_seq_items value with
  | none => .error .typeError
  | some items =>
    if items.length = rows.length then
      match rows_as_floats items with
      | none => .error .typeError
      | some rs =>
        if rs.all (fun r => r.length == mat_cols rows) then .ok (.mat rs)
        else .error .valueError
    else .error .valueError

/-- Python `x[0]`: first element of a subscriptable value (IndexError when
empty, TypeError when not subscriptable). -/
def py_index0 : Py → Except PyErr Py
  | .list [] => .error .indexError
  | .list (x :: _) => .ok x
  | .tup [] => .error .indexError
  | .tup (x :: _) => .ok x
  | .vec [] => .error .indexError
  | .vec (c :: _) => .ok (.float c)
  | .col [] => .error .indexError
  | .col (c :: _) => .ok (.float c)
  | .mat [] => .error .indexError
  | .mat (r :: _) => .ok (.vec r)
  | .arr [] _ => .error .indexError
  | .arr (c :: _) _ => .ok (.float c)
  | .str [] => .error .indexError
  | .str (c :: _) => .ok (.str [c])
  | _ => .error .typeError

/-- The final catch-all of `assign_data`: `obj[:] = type(obj)(data[0][0])`.
Reconstructing works for a plain list target; immutable or
non-constructible types (str, tuple, bpy_prop_array, data-blocks, None)
raise TypeError in the host. -/
def optimistic_reassign (obj x : Py) : Except PyErr Py :=
  match obj with
  | .list _ =>
    match py_seq_items x with
    | some xs => .ok (.list xs)
    | none => .error .typeError
  | _ => .error .typeError

/-- `assign_data`: write socket data into the target object.  The result is
the post-state of the object the caller passed in; for an int/float target
the Python code only rebinds the local name `obj` (after evaluating
`data[0][0]`), which has no caller-visible effect, so the object is
returned unchanged. -/
def assign_data (obj data : Py) : Except PyErr Py :=
  match obj with
  | .int _ | .float _ =>
    match py_index0 data with
    | .error e => .error e
    | .ok d0 =>
      match py_index0 d0 with
      | .error e => .error e
      | .ok _ => .ok obj
  | .vec cs =>
    match py_index0 data with
    | .error e => .error e
    | .ok d0 =>
      match py_index0 d0 with
      | .error e => .error e
      | .ok d00 =>
        match as_float_seq d00 with
        | none => .error .typeError
        | some fs =>
          if fs.length = cs.length then .ok (.vec fs) else .error .valueError
  | .col cs =>
    match py_index0 data with
    | .error e => .error e
    | .ok d0 =>
      match py_index0 d0 with
      | .error e => .error e
      | .ok d00 =>
        match as_float_seq d00 with
        | none => .error .typeError
        | some fs =>
          if fs.length = cs.length then .ok (.col fs) else .error .valueError
  | .eul _ ord =>
    match py_index0 data with
    | .error e => .error e
    | .ok m =>
      match m with
      | .mat rows => .ok (.eul (mat_to_euler rows ord) ord)
      | _ => .error .attrError
  | .quat _ =>
    match py_index0 data with
    | .error e => .error e
    | .ok m =>
      match m with
      | .mat rows => .ok (.quat (mat_to_quat rows))
      | _ => .error .attrError
  | .mat rows =>
    match py_index0 data with
    | .error e => .error e
    | .ok m => mat_slice_assign rows m
  | _ =>
    match py_index0 data with
    | .error e => .error e
    | .ok d0 =>
      match py_index0 d0 with
      | .error e => .error e
      | .ok d00 => optimistic_reassign obj d00

mutual
/-- The Python 3.7-era `ast` expression nodes relevant to this module:
`Name`, `Attribute`, `Subscript` (whose `slice` is an `Index`/`Slice`/
`ExtSlice` node), `Call`, and the literal nodes `Num`/`Str`. -/
inductive AExpr where
  | name (id : List Char)
  | attribute (value : AExpr) (attr : List Char)
  | subscript (value : AExpr) (slice : ASlice)
  | call (func : AExpr)
  | numLit (n : Int)
  | strLit (s : List Char)

/-- The slice nodes of a Python 3.7-era `Subscript`.  Only `Index` has a
`.value` attribute; accessing `.value` on `Slice`/`ExtSlice` raises
AttributeError. -/
inductive ASlice where
  | index (value : AExpr)
  | sliceRange
  | extSlice
end

/-- One step of a parsed property path: `("name", id)`, `("attr", a)` or
`("key", k)` tuples of the source. -/
inductive PathOp where
  | name (s : List Char)
  | attr (s : List Char)
  | key (k : PKey)
deriving DecidableEq

/-- `parse_to_path`: fold an AST expression into a path.  The result is
`Option` because the Subscript branch has no `else`: when the subscript
index is neither a `Num` nor a `Str` literal the Python function falls off
the end and implicitly returns `None`.  Accessing `.value` on a
`Slice`/`ExtSlice` raises AttributeError; a recursive result of `None` used
in `None + [...]` raises TypeError; any other node shape raises the
`NameError` of the final `else`. -/
def parse_to_path : AExpr → Except PyErr (Option (List PathOp))
  | .attribute v a =>
    match parse_to_path v with
    | .error e => .error e
    | .ok none => .error .typeError
    | .ok (some l) => .ok (some (l ++ [.attr a]))
  | .subscript v sl =>
    match sl with
    | .index (.numLit n) =>
      match parse_to_path v with
      | .error e => .error e
      | .ok none => .error .typeError
      | .ok (some l) => .ok (some (l ++ [.key (.num n)]))
    | .index (.strLit s) =>
      match parse_to_path v with
      | .error e => .error e
      | .ok none => .error .typeError
      | .ok (some l) => .ok (some (l ++ [.key (.strK s)]))
    | .index _ => .ok none
    | .sliceRange => .error .attrError
    | .extSlice => .error .attrError
  | .name i => .ok (some [.name i])
  | .call _ => .error .nameError
  | .numLit _ => .error .nameError
  | .strLit _ => .error .nameError

/-- Whether an AST node is one of the two literal node kinds accepted as a
subscript index. -/
def is_ast_literal : AExpr → Bool
  | .numLit _ => true
  | .strLit _ => true
  | _ => false

/-- Characters allowed inside a Python identifier (the model does not
distinguish a leading digit). -/
def isIdentChar (c : Char) : Bool :=
  c.isAlphanum || c == '_'

/-- Longest identifier prefix of a character list, and the remainder. -/
def takeIdent : List Char → (List Char × List Char)
  | [] => ([], [])
  | c :: cs =>
    if isIdentChar c then
      let (i, r) := takeIdent cs
      (c :: i, r)
    else ([], c :: cs)

/-- Longest digit prefix of a character list, and the remainder. -/
def takeDigits : List Char → (List Char × List Char)
  | [] => ([], [])
  | c :: cs =>
    if c.isDigit then
      let (d, r) := takeDigits cs
      (c :: d, r)
    else ([], c :: cs)

/-- Decimal value of a digit string. -/
def natFromDigits (ds : List Char) : Nat :=
  ds.foldl (fun n c => n * 10 + (c.toNat - ('0').toNat)) 0

/-- Split a character list at the first double quote (exclusive; the
remainder starts with the quote when one exists). -/
def splitAtQuote : List Char → (List Char × List Char)
  | [] => ([], [])
  | c :: cs =>
    if c == '"' then ([], c :: cs)
    else
      let (a, b) := splitAtQuote cs
      (c :: a, b)

/-- Trailer loop of the path mini-language: a chain of `.ident`, `[digits]`
and `["chars"]` trailers applied to a base expression.  Fuel is the length
of the remaining input (each trailer consumes at least one character). -/
def parse_trailers : Nat → AExpr → List Char → Except PyErr AExpr
  | _, base, [] => .ok base
  | 0, _, _ :: _ => .error .syntaxError
  | fuel + 1, base, c :: rest =>
    if c == '.' then
      let (i, r) := takeIdent rest
      if i.isEmpty then .error .syntaxError
      else parse_trailers fuel (.attribute base i) r
    else if c == '[' then
      match rest with
      | '"' :: r2 =>
        let (s, r3) := splitAtQuote r2
        match r3 with
        | '"' :: ']' :: r4 =>
          parse_trailers fuel (.subscript base (.index (.strLit s))) r4
        | _ => .error .syntaxError
      | _ =>
        let (ds, r2) := takeDigits rest
        if ds.isEmpty then .error .syntaxError
        else
          match r2 with
          | ']' :: r3 =>
            parse_trailers fuel
              (.subscript base (.index (.numLit (natFromDigits ds)))) r3
          | _ => .error .syntaxError
    else .error .syntaxError

/-- Model of the external `ast.parse(s).body[0].value` of the Python
standard library, restricted to the property-path mini-language
`<identifier>(.attr | [int] | ["chars"])*` this module feeds it (string
subscripts with double quotes); anything else is rejected with a
SyntaxError. -/
def ast_parse_expr (s : List Char) : Except PyErr AExpr :=
  let (i, r) := takeIdent s
  if i.isEmpty then .error .syntaxError
  else parse_trailers r.length (.name i) r

/-- The module's global namespace as a reachable object graph: an
association list from global names to host value trees (the resolver only
ever looks up the path root, normally `bpy`). -/
abbrev Globals := List (List Char × Py)

/-- Lookup in a name-keyed association list. -/
def assoc_find : List (List Char × Py) → List Char → Option Py
  | [], _ => none
  | (k0, v0) :: rest, k => if k0 = k then some v0 else assoc_find rest k

/-- Replace the value of an existing key in a name-keyed association
list (no insertion). -/
def assoc_set : List (List Char × Py) → List Char → Py → List (List Char × Py)
  | [], _, _ => []
  | (k0, v0) :: rest, k, x =>
    if k0 = k then (k0, x) :: rest else (k0, v0) :: assoc_set rest k x

/-- Lookup in a subscript-keyed association list. -/
def kassoc_find : List (PKey × Py) → PKey → Option Py
  | [], _ => none
  | (k0, v0) :: rest, k => if k0 = k then some v0 else kassoc_find rest k

/-- Replace or insert a key in a subscript-keyed association list
(dict-like item assignment). -/
def kassoc_set : List (PKey × Py) → PKey → Py → List (PKey × Py)
  | [], k, x => [(k, x)]
  | (k0, v0) :: rest, k, x =>
    if k0 = k then (k0, x) :: rest else (k0, v0) :: kassoc_set rest k x

/-- Python `getattr(obj, a)`: only host data-blocks carry named attributes
in this model; anything else (or a missing name) raises AttributeError. -/
def py_getattr (v : Py) (a : List Char) : Except PyErr Py :=
  match v with
  | .hobj attrs _ =>
    match assoc_find attrs a with
    | some x => .ok x
    | none => .error .attrError
  | _ => .error .attrError

/-- Element of a list at a Python index (the paths this module builds use
non-negative literal indices; negative wrap-around is not modelled). -/
def list_at {α : Type} (xs : List α) (n : Int) : Except PyErr α :=
  if n < 0 then .error .indexError
  else
    match xs.get? n.toNat with
    | some x => .ok x
    | none => .error .indexError

/-- Python `obj[key]`: item access on data-blocks (by key), lists, tuples,
property arrays and the mathutils sequence types. -/
def py_getitem (v : Py) (k : PKey) : Except PyErr Py :=
  match v with
  | .hobj _ items =>
    match kassoc_find items k with
    | some x => .ok x
    | none => .error .keyError
  | .list xs =>
    match k with
    | .num n => list_at xs n
    | .strK _ => .error .typeError
  | .tup xs =>
    match k with
    | .num n => list_at xs n
    | .strK _ => .error .typeError
  | .arr cs _ =>
    match k with
    | .num n =>
      match list_at cs n with
      | .ok c => .ok (.float c)
      | .error e => .error e
    | .strK _ => .error .typeError
  | .vec cs =>
    match k with
    | .num n =>
      match list_at cs n with
      | .ok c => .ok (.float c)
      | .error e => .error e
    | .strK _ => .error .typeError
  | .col cs =>
    match k with
    | .num n =>
      match list_at cs n with
      | .ok c => .ok (.float c)
      | .error e => .error e
    | .strK _ => .error .typeError
  | .mat rows =>
    match k with
    | .num n =>
      match list_at rows n with
      | .ok r => .ok (.vec r)
      | .error e => .error e
    | .strK _ => .error .typeError
  | _ => .error .typeError

/-- Python `setattr(obj, a, x)` on a host data-block: Blender's restricted
data-blocks only accept existing properties (no new attributes). -/
def py_setattr (v : Py) (a : List Char) (x : Py) : Except PyErr Py :=
  match v with
  | .hobj attrs items =>
    match assoc_find attrs a with
    | some _ => .ok (.hobj (assoc_set attrs a x) items)
    | none => .error .attrError
  | _ => .error .attrError

/-- Python `obj[key] = x`: dict-like assignment on data-block items,
index assignment on lists and (float-valued) property arrays. -/
def py_item_set (v : Py) (k : PKey) (x : Py) : Except PyErr Py :=
  match v with
  | .hobj attrs items => .ok (.hobj attrs (kassoc_set items k x))
  | .list xs =>
    match k with
    | .num n =>
      if n < 0 then .error .indexError
      else if n.toNat < xs.length then .ok (.list (xs.set n.toNat x))
      else .error .indexError
    | .strK _ => .error .typeError
  | .arr cs pid =>
    match k, x with
    | .num n, .float q =>
      if n < 0 then .error .indexError
      else if n.toNat < cs.length then .ok (.arr (cs.set n.toNat q) pid)
      else .error .indexError
    | .num n, .int m =>
      if n < 0 then .error .indexError
      else if n.toNat < cs.length then .ok (.arr (cs.set n.toNat (m : Rat)) pid)
      else .error .indexError
    | _, _ => .error .typeError
  | _ => .error .typeError

/-- The loop of `get_object`: apply attr/key steps left to right.  A
`name` op in the tail matches no branch of the source loop and leaves the
current object unchanged. -/
def path_walk (v : Py) : List PathOp → Except PyErr Py
  | [] => .ok v
  | .attr a :: rest =>
    match py_getattr v a with
    | .error e => .error e
    | .ok v2 => path_walk v2 rest
  | .key k :: rest =>
    match py_getitem v k with
    | .error e => .error e
    | .ok v2 => path_walk v2 rest
  | .name _ :: rest => path_walk v rest

/-- `globals()[path[0][1]]`: the first op's payload looked up in the global
namespace dict, whatever the op kind (the source never inspects
`path[0][0]`); a missing name raises KeyError. -/
def root_lookup (g : Globals) (op : PathOp) : Except PyErr Py :=
  match op with
  | .name n | .attr n =>
    match assoc_find g n with
    | some v => .ok v
    | none => .error .keyError
  | .key (.strK s) =>
    match assoc_find g s with
    | some v => .ok v
    | none => .error .keyError
  | .key (.num _) => .error .keyError

/-- `get_object`: root lookup then the attr/key walk; the `path[0]` access
on an empty path raises IndexError. -/
def get_object (g : Globals) : List PathOp → Except PyErr Py
  | [] => .error .indexError
  | op0 :: rest =>
    match root_lookup g op0 with
    | .error e => .error e
    | .ok v => path_walk v rest

/-- Functional update along a path: fetch the child at each step, update it
recursively, and write it back — the tree-model counterpart of mutating in
place a live object reached by the path. -/
def py_update (v : Py) : List PathOp → (Py → Except PyErr Py) → Except PyErr Py
  | [], f => f v
  | .attr a :: rest, f =>
    match py_getattr v a with
    | .error e => .error e
    | .ok child =>
      match py_update child rest f with
      | .error e => .error e
      | .ok child2 => py_setattr v a child2
  | .key k :: rest, f =>
    match py_getitem v k with
    | .error e => .error e
    | .ok child =>
      match py_update child rest f with
      | .error e => .error e
      | .ok child2 => py_item_set v k child2
  | .name _ :: rest, f => py_update v rest f

/-- Apply a mutating update to the object reached by a path, writing the
updated root back into the globals model. -/
def globals_update (g : Globals) (path : List PathOp) (f : Py → Except PyErr Py) :
    Except PyErr Globals :=
  match path with
  | [] => .error .indexError
  | op0 :: rest =>
    match op0 with
    | .name n | .attr n =>
      match assoc_find g n with
      | some v =>
        match py_update v rest f with
        | .error e => .error e
        | .ok v2 => .ok (assoc_set g n v2)
      | none => .error .keyError
    | .key (.strK s) =>
      match assoc_find g s with
      | some v =>
        match py_update v rest f with
        | .error e => .error e
        | .ok v2 => .ok (assoc_set g s v2)
      | none => .error .keyError
    | .key (.num _) => .error .keyError

/-- The `obj` property of `SvPropNodeMixin`: apply_alias, `ast.parse`,
parse_to_path, get_object.  When parse_to_path returns None the call
`get_object(None)` subscripts None, raising TypeError. -/
def resolve_obj (g : Globals) (pname : List Char) : Except PyErr Py :=
  match apply_alias pname with
  | .error e => .error e
  | .ok estr =>
    match ast_parse_expr estr with
    | .error e => .error e
    | .ok a =>
      match parse_to_path a with
      | .error e => .error e
      | .ok none => .error .typeError
      | .ok (some path) => get_object g path

/-- The `types` dict lookup `types.get(type(item))`: the socket name for
the exact runtime type of the item, when that type is one of the eight
listed (note `type()` equality, not isinstance). -/
def types_get : Py → Option (List Char)
  | .int _ => some ("SvStringsSocket".data)
  | .float _ => some ("SvStringsSocket".data)
  | .str _ => some ("SvStringsSocket".data)
  | .vec _ => some ("SvVerticesSocket".data)
  | .col _ => some ("SvColorSocket".data)
  | .mat _ => some ("SvMatrixSocket".data)
  | .eul _ _ => some ("SvMatrixSocket".data)
  | .quat _ => some ("SvQuaternionSocket".data)
  | _ => none

/-- The classification logic of `type_assesment` applied to the resolved
item: the type-table lookup first, then the color-array heuristic, else no
classification. -/
def type_assesment_item (item : Py) : Option (List Char) :=
  match types_get item with
  | some s => some s
  | none =>
    if is_probably_color item then some ("SvColorSocket".data) else none

/-- `type_assesment`: re-resolves `self.obj` and classifies it. -/
def type_assesment (g : Globals) (pname : List Char) :
    Except PyErr (Option (List Char)) :=
  match resolve_obj g pname with
  | .error e => .error e
  | .ok item => .ok (type_assesment_item item)

/-- The `p_name` dict of `prop_assesment` applied to the resolved item
(defaulting to the empty string). -/
def prop_assesment_item : Py → List Char
  | .float _ => "float_prop".data
  | .int _ => "int_prop".data
  | .arr _ _ => "color_prop".data
  | _ => []

/-- `prop_assesment`: re-resolves `self.obj` and picks the locally
reflected property name for the socket. -/
def prop_assesment (g : Globals) (pname : List Char) : Except PyErr (List Char) :=
  match resolve_obj g pname with
  | .error e => .error e
  | .ok item => .ok (prop_assesment_item item)

/-- Socket reconfiguration of the get node: replace the first output
socket's type when one exists, create one otherwise, and do nothing when
there is no classification. -/
def socket_reconfig (sOpt : Option (List Char)) (outs : List (List Char)) :
    List (List Char) :=
  match sOpt, outs with
  | some t, _ :: rest => t :: rest
  | some t, [] => [t]
  | none, o => o

/-- `SvGetPropNodeMK2.execute_inside_throttle`. -/
def get_execute_inside_throttle (g : Globals) (pname : List Char)
    (outs : List (List Char)) : Except PyErr (List (List Char)) :=
  match type_assesment g pname with
  | .error e => .error e
  | .ok sOpt => .ok (socket_reconfig sOpt outs)

/-- GUI-visible state of a get node: the sticky error flag and the output
socket types. -/
structure GetState where
  bad_prop : Bool
  outputs : List (List Char)

/-- `verify_prop` for the get node: on resolution failure set `bad_prop`
and stop (no socket change, no update); on success clear it, reconfigure
inside the throttle and call `updateNode` (the returned Bool). -/
def get_verify_prop (g : Globals) (pname : List Char) (s : GetState) :
    Except PyErr (GetState × Bool) :=
  match resolve_obj g pname with
  | .error _ => .ok ({ s with bad_prop := true }, false)
  | .ok _ =>
    match get_execute_inside_throttle g pname s.outputs with
    | .error e => .error e
    | .ok outs => .ok ({ bad_prop := false, outputs := outs }, true)

/-- One input socket of the set node: socket type, reflected property name
and the `use_prop` flag. -/
structure SetSock where
  stype : List Char
  prop_ref : List Char
  use_prop : Bool

/-- GUI-visible state of a set node. -/
structure SetState where
  bad_prop : Bool
  inputs : List SetSock

/-- Replace the first input socket with a fresh socket of the classified
type (or create one when there is none): `inputs[0].replace_socket(s_type)`
/ `inputs.new(s_type, "Data")`, both followed by `socket.prop_name =
p_name`. -/
def set_socket_replace (t pn : List Char) : List SetSock → List SetSock
  | _ :: rest => ⟨t, pn, false⟩ :: rest
  | [] => [⟨t, pn, false⟩]

/-- The trailing `if s_type == "SvVerticesSocket": inputs[0].use_prop =
True` of the set node's reconfiguration. -/
def set_socket_vertex_fix (t : List Char) (ins1 : List SetSock) : List SetSock :=
  if t = "SvVerticesSocket".data then
    match ins1 with
    | i :: rest => ⟨i.stype, i.prop_ref, true⟩ :: rest
    | [] => []
  else ins1

/-- Socket reconfiguration of the set node: replace or create the first
input socket with the classified type and reflected property name, then
turn `use_prop` on for vertex sockets; no classification leaves the
sockets untouched. -/
def set_socket_reconfig (sOpt : Option (List Char)) (pn : List Char)
    (ins : List SetSock) : List SetSock :=
  match sOpt with
  | none => ins
  | some t => set_socket_vertex_fix t (set_socket_replace t pn ins)

/-- `SvSetPropNodeMK2.execute_inside_throttle`. -/
def set_execute_inside_throttle (g : Globals) (pname : List Char)
    (ins : List SetSock) : Except PyErr (List SetSock) :=
  match type_assesment g pname with
  | .error e => .error e
  | .ok sOpt =>
    match prop_assesment g pname with
    | .error e => .error e
    | .ok pn => .ok (set_socket_reconfig sOpt pn ins)

/-- `verify_prop` for the set node (same mixin logic, set-node socket
reconfiguration). -/
def set_verify_prop (g : Globals) (pname : List Char) (s : SetState) :
    Except PyErr (SetState × Bool) :=
  match resolve_obj g pname with
  | .error _ => .ok ({ s with bad_prop := true }, false)
  | .ok _ =>
    match set_execute_inside_throttle g pname s.inputs with
    | .error e => .error e
    | .ok ins => .ok ({ bad_prop := false, inputs := ins }, true)

/-- `isinstance(obj, (int, float, bpy_prop_array))`. -/
def is_scalar_target : Py → Bool
  | .int _ => true
  | .float _ => true
  | .arr _ _ => true
  | _ => false

/-- The scalar/array branch inside the set node's try block: resolve the
path one step short (`get_object(path[:-1])`), then setattr / item-set the
first data element `data[0][0]` onto that object (mutation modelled as a
functional update along the shortened path). -/
def set_scalar_write (g : Globals) (path : List PathOp) (data : Py) :
    Except PyErr Globals :=
  match get_object g path.dropLast with
  | .error e => .error e
  | .ok _ =>
    match path.getLast? with
    | none => .error .indexError
    | some op =>
      match py_index0 data with
      | .error e => .error e
      | .ok d0 =>
        match py_index0 d0 with
        | .error e => .error e
        | .ok d00 =>
          match op with
          | .attr a => globals_update g path.dropLast (fun o => py_setattr o a d00)
          | .key k => globals_update g path.dropLast (fun o => py_item_set o k d00)
          | .name nm =>
            globals_update g path.dropLast (fun o => py_item_set o (.strK nm) d00)

/-- `SvSetPropNodeMK2.process` (`data` stands for `inputs[0].sv_get()`):
alias expansion, parsing and resolution run before the try block, so their
errors propagate out of `process`; everything inside the try block — the
scalar/array direct write or `assign_data` — has its errors swallowed
(printed only), leaving the graph unchanged. -/
def set_process (g : Globals) (pname : List Char) (data : Py) :
    Except PyErr Globals :=
  match apply_alias pname with
  | .error e => .error e
  | .ok estr =>
    match ast_parse_expr estr with
    | .error e => .error e
    | .ok a =>
      match parse_to_path a with
      | .error e => .error e
      | .ok none => .error .typeError
      | .ok (some path) =>
        match get_object g path with
        | .error e => .error e
        | .ok obj =>
          match
            (if is_scalar_target obj then set_scalar_write g path data
             else globals_update g path (fun o => assign_data o data)) with
          | .ok g2 => .ok g2
          | .error _ => .ok g

/-- A concrete host graph for the spec's scalar example:
`bpy.data.texts["Foo"].count = 0`. -/
def g_ex : Globals :=
  [("bpy".data,
    .hobj
      [("data".data,
        .hobj
          [("texts".data,
            .hobj [] [(.strK ("Foo".data), .hobj [("count".data, .int 0)] [])])]
          [])]
      [])]

/-- The same graph after the spec's example write (`count = 5`). -/
def g_ex_after : Globals :=
  [("bpy".data,
    .hobj
      [("data".data,
        .hobj
          [("texts".data,
            .hobj [] [(.strK ("Foo".data), .hobj [("count".data, .int 5)] [])])]
          [])]
      [])]

/-- The property-path string of the spec's scalar example. -/
def pname_ex : List Char := "data.texts[\"Foo\"].count".data

/-- The parsed path of the spec's scalar example. -/
def path_ex : List PathOp :=
  [.name ("bpy".data), .attr ("data".data), .attr ("texts".data),
   .key (.strK ("Foo".data)), .attr ("count".data)]

/-- The AST of the expanded example path string. -/
def ast_ex : AExpr :=
  .attribute
    (.subscript
      (.attribute (.attribute (.name ("bpy".data)) ("data".data)) ("texts".data))
      (.index (.strLit ("Foo".data))))
    ("count".data)

/-- A minimal host graph whose resolved object has an unclassifiable
type (`bpy.data` bound to a plain empty list). -/
def g_small : Globals :=
  [("bpy".data, .hobj [("data".data, .list [])] [])]

theorem findAlias_mem_prefix (l : List (List Char × List Char)) (s a e : List Char)
    (h : findAlias s l = some (a, e)) :
    (a, e) ∈ l ∧ strStartsWith s a = true := by
  induction l with
  | nil => simp [findAlias] at h
  | cons p rest ih =>
    obtain ⟨a0, e0⟩ := p
    by_cases hs : strStartsWith s a0 = true
    · simp [findAlias, hs] at h
      obtain ⟨rfl, rfl⟩ := h
      exact ⟨List.mem_cons_self _ _, hs⟩
    · simp [findAlias, hs] at h
      obtain ⟨hm, hp⟩ := ih h
      exact ⟨List.mem_cons_of_mem _ hm, hp⟩

theorem replaceFirst_of_prefix (s old new : List Char)
    (h : strStartsWith s old = true) :
    replaceFirst s old new = new ++ s.drop old.length := by
  cases s with
  | nil => simp [replaceFirst, h]
  | cons c cs => simp [replaceFirst, h]

theorem aliases_expand_bpy :
    ∀ p ∈ aliases, strStartsWith p.2 ("bpy.".data) = true := by decide

theorem strStartsWith_append (p : List Char) :
    ∀ e r : List Char, strStartsWith e p = true → strStartsWith (e ++ r) p = true := by
  induction p with
  | nil => intro e r _; cases e <;> simp [strStartsWith]
  | cons d ds ih =>
    intro e r h
    cases e with
    | nil => simp [strStartsWith] at h
    | cons c cs =>
      simp [strStartsWith] at h ⊢
      exact ⟨h.1, ih cs r h.2⟩

/-- Claim C7: for every path string that, after alias expansion, does not
begin with the namespace root `bpy.`, `apply_alias` raises `NameError`. -/
theorem apply_alias_requires_bpy_root (s : List Char)
    (h : strStartsWith (alias_expansion s) ("bpy.".data) = false) :
    apply_alias s = .error .nameError := by
  by_cases hb : strStartsWith s ("bpy.".data) = true
  · exfalso
    rw [alias_expansion, if_pos hb, hb] at h
    exact Bool.noConfusion h
  · rw [alias_expansion, if_neg hb] at h
    cases hf : findAlias s aliases with
    | none =>
      rw [hf] at h
      simp [apply_alias, hb, hf, h]
    | some p =>
      obtain ⟨a, e⟩ := p
      rw [hf] at h
      simp [apply_alias, hb, hf, h]

/-- Witness for claim C7 at the concrete string `zzz`, which no alias
matches. -/
theorem apply_alias_requires_bpy_root_witness :
    apply_alias ("zzz".data) = .error .nameError :=
  apply_alias_requires_bpy_root ("zzz".data) (by decide)

/-- Claim C8: `apply_alias` expands an alias at most once per call, and any
substitution it performs is exactly a prefix substitution at string position
0 (the successful result is either the input itself, or
`expanded ++ input-with-the-alias-prefix-removed` for the first alias token
that is a prefix of the input). -/
theorem apply_alias_single_prefix_substitution (s : List Char) :
    apply_alias s = .ok s ∨ apply_alias s = .error .nameError ∨
      ∃ a e, (a, e) ∈ aliases ∧ strStartsWith s a = true ∧
        apply_alias s = .ok (e ++ s.drop a.length) := by
  by_cases hb : strStartsWith s ("bpy.".data) = true
  · left
    simp [apply_alias, hb]
  · cases hf : findAlias s aliases with
    | none =>
      right; left
      simp [apply_alias, hb, hf]
    | some p =>
      obtain ⟨a, e⟩ := p
      obtain ⟨hmem, hpre⟩ := findAlias_mem_prefix aliases s a e hf
      right; right
      refine ⟨a, e, hmem, hpre, ?_⟩
      have hrep := replaceFirst_of_prefix s a e hpre
      have hok : strStartsWith (e ++ s.drop a.length) ("bpy.".data) = true :=
        strStartsWith_append _ _ _ (aliases_expand_bpy (a, e) hmem)
      simp [apply_alias, hb, hf, hrep, hok]

/-- Claim C10: alias matching is not token-delimited: `contrast` starts with
the alias token `c`, so `apply_alias` substitutes it anyway and returns the
mangled expansion `bpy.contextontrast` instead of rejecting the string. -/
theorem apply_alias_not_token_delimited :
    apply_alias ("contrast".data) = .ok ("bpy.contextontrast".data) := rfl

theorem seq_floats_map_float (cs : List Rat) :
    seq_floats (cs.map Py.float) = some cs := by
  induction cs with
  | nil => rfl
  | cons q rest ih => simp [seq_floats, ih]

/-- Claim C1 (amended): feeding the socket data produced by
`wrap_output_data` back through `assign_data` onto an identical target
reproduces the component values exactly for Vector and Color targets, but
for a Matrix target the write conversion fails with an error (the read
conversion nests the matrix as `[[M]]` while `assign_data` treats `data[0]`
itself as the matrix, so the slice assignment receives a 1-element sequence
and no write happens). -/
theorem wrap_assign_roundtrip_by_kind :
    (∀ cs : List Rat,
        assign_data (.vec cs) (wrap_output_data (.vec cs)) = .ok (.vec cs)) ∧
    (∀ cs : List Rat,
        assign_data (.col cs) (wrap_output_data (.col cs)) = .ok (.col cs)) ∧
    (∀ rows : List (List Rat),
        ∃ e, assign_data (.mat rows) (wrap_output_data (.mat rows)) = .error e) := by
  refine ⟨?_, ?_, ?_⟩
  · intro cs
    simp [wrap_output_data, assign_data, py_index0, as_float_seq, seq_floats_map_float]
  · intro cs
    simp [wrap_output_data, assign_data, py_index0, as_float_seq]
  · intro rows
    match rows with
    | [] => exact ⟨.valueError, rfl⟩
    | [r] => exact ⟨.typeError, rfl⟩
    | r1 :: r2 :: rs =>
      refine ⟨.valueError, ?_⟩
      have h2 : ¬ ((1 : Nat) = (r1 :: r2 :: rs).length) := by simp
      simp [wrap_output_data, assign_data, py_index0, mat_slice_assign, py_seq_items, h2]

/-- Counterexample for claim C1 as stated: on the concrete 4x4 identity
matrix, writing the socket data produced by the read conversion back
through `assign_data` raises a size-mismatch ValueError instead of
reproducing the matrix. -/
theorem wrap_assign_matrix_roundtrip_error :
    assign_data
        (.mat [[1, 0, 0, 0], [0, 1, 0, 0], [0, 0, 1, 0], [0, 0, 0, 1]])
        (wrap_output_data
          (.mat [[1, 0, 0, 0], [0, 1, 0, 0], [0, 0, 1, 0], [0, 0, 0, 1]])) =
      .error .valueError := rfl

/-- Claim C2 (amended): `wrap_output_data` converts each input as the source
enumerates — vectors to one nested sequence of component floats, colors to
a nested Color copy, matrices to a nested Matrix copy (itself a
row-sequence), Euler/Quaternion first to an equivalent 4x4 matrix and then
to rows of component tuples, plain lists wrapped one level, scalars wrapped
twice — with the addition that a host property-array whose `path_from_id`
ends in `color` becomes a nested Color of its **first three** components;
every other value (strings, tuples, other property-arrays, data-blocks,
None) is returned unmodified. -/
theorem wrap_output_data_cases :
    (∀ cs, wrap_output_data (.vec cs) = .list [.list [.tup (cs.map Py.float)]]) ∧
    (∀ cs, wrap_output_data (.col cs) = .list [.list [.col cs]]) ∧
    (∀ rows, wrap_output_data (.mat rows) = .list [.list [.mat rows]]) ∧
    (∀ cs ord, wrap_output_data (.eul cs ord) =
        .list [.list (rows_to_tuples (to_4x4 (euler_to_mat3 cs ord)))]) ∧
    (∀ cs, wrap_output_data (.quat cs) =
        .list [.list (rows_to_tuples (to_4x4 (quat_to_mat3 cs)))]) ∧
    (∀ xs, wrap_output_data (.list xs) = .list [.list xs]) ∧
    (∀ n, wrap_output_data (.int n) = .list [.list [.int n]]) ∧
    (∀ q, wrap_output_data (.float q) = .list [.list [.float q]]) ∧
    (∀ cs pid, is_probably_color (.arr cs pid) = true →
        wrap_output_data (.arr cs pid) = .list [.list [.col (cs.take 3)]]) ∧
    (∀ cs pid, is_probably_color (.arr cs pid) = false →
        wrap_output_data (.arr cs pid) = .arr cs pid) ∧
    (∀ s, wrap_output_data (.str s) = .str s) ∧
    (∀ xs, wrap_output_data (.tup xs) = .tup xs) ∧
    (∀ attrs items, wrap_output_data (.hobj attrs items) = .hobj attrs items) ∧
    (wrap_output_data .none_ = .none_) := by
  refine ⟨fun _ => rfl, fun _ => rfl, fun _ => rfl, fun _ _ => rfl, fun _ => rfl,
    fun _ => rfl, fun _ => rfl, fun _ => rfl, ?_, ?_, fun _ => rfl, fun _ => rfl,
    fun _ _ => rfl, rfl⟩
  · intro cs pid h
    simp [wrap_output_data, h]
  · intro cs pid h
    simp [wrap_output_data, h]

/-- Witness for claim C2 at a concrete color-like property array. -/
theorem wrap_output_data_cases_witness :
    wrap_output_data (.arr ([1, 2, 3, 4] : List Rat) (some ("diffuse_color".data))) =
      .list [.list [.col (([1, 2, 3, 4] : List Rat).take 3)]] :=
  wrap_output_data_cases.2.2.2.2.2.2.2.2.1
    ([1, 2, 3, 4] : List Rat) (some ("diffuse_color".data)) (by rfl)

/-- Counterexample for claim C2 as stated: a 4-component `bpy_prop_array`
whose `path_from_id` ends in `color` is none of the types the claim
enumerates, yet it is neither returned unmodified nor converted to a
sequence of all of its components — it is truncated to a 3-component
Color. -/
theorem wrap_output_data_color_array_cex :
    wrap_output_data (.arr ([1, 2, 3, 4] : List Rat) (some ("rna.color".data))) =
        .list [.list [.col ([1, 2, 3] : List Rat)]] ∧
    wrap_output_data (.arr ([1, 2, 3, 4] : List Rat) (some ("rna.color".data))) ≠
        .arr ([1, 2, 3, 4] : List Rat) (some ("rna.color".data)) :=
  ⟨rfl, fun h => Py.noConfusion h⟩

/-- Claim C3 (amended): of the syntax shapes outside the three supported
operation kinds, a call expression fails with the NameError of the final
`else`, and an unsupported slice type (`Slice`/`ExtSlice`) fails with an
AttributeError (the access `p.slice.value` on a node without `.value`); but
a subscript whose index is a non-literal expression does **not** raise — the
Subscript branch falls through both literal tests and the function
implicitly returns None (the failure only surfaces later as a TypeError
when the None is used). -/
theorem parse_to_path_shape_errors :
    (∀ f, parse_to_path (.call f) = .error .nameError) ∧
    (∀ v, parse_to_path (.subscript v .sliceRange) = .error .attrError) ∧
    (∀ v, parse_to_path (.subscript v .extSlice) = .error .attrError) ∧
    (∀ v e, is_ast_literal e = false →
        parse_to_path (.subscript v (.index e)) = .ok none) := by
  refine ⟨fun _ => rfl, fun _ => rfl, fun _ => rfl, ?_⟩
  intro v e h
  match e, h with
  | .name _, _ => rfl
  | .attribute _ _, _ => rfl
  | .subscript _ _, _ => rfl
  | .call _, _ => rfl
  | .numLit _, h => simp [is_ast_literal] at h
  | .strLit _, h => simp [is_ast_literal] at h

/-- Witness for claim C3 at the concrete expression `a[b]` (a subscript
whose index is the non-literal name `b`). -/
theorem parse_to_path_shape_errors_witness :
    parse_to_path (.subscript (.name ("a".data)) (.index (.name ("b".data)))) =
      .ok none :=
  parse_to_path_shape_errors.2.2.2 (.name ("a".data)) (.name ("b".data)) rfl

/-- Counterexample for claim C3 as stated: parsing the subscript expression
`a[i]` whose index is the non-literal name `i` returns None instead of
raising a lookup/name error. -/
theorem parse_to_path_nonliteral_subscript_cex :
    parse_to_path (.subscript (.name ("a".data)) (.index (.name ("i".data)))) =
      .ok none := rfl

/-- Claim C4: for every write whose resolved target is a plain scalar
(int/float) or host array, the set node's process takes the branch that
resolves the path one step short of the final operation and performs a
direct attribute-set or index-set of the first data element `data[0][0]`
(with errors of that write swallowed); and concretely, with alias `data`
expanded to the fully-qualified root, writing socket data `[[5]]` through
`data.texts["Foo"].count` sets that numeric property to 5. -/
theorem set_process_scalar_write_spec :
    (∀ (g : Globals) (pname : List Char) (data : Py) (estr : List Char)
        (a : AExpr) (path : List PathOp) (obj : Py),
      apply_alias pname = .ok estr →
      ast_parse_expr estr = .ok a →
      parse_to_path a = .ok (some path) →
      get_object g path = .ok obj →
      is_scalar_target obj = true →
      set_process g pname data =
        .ok (match set_scalar_write g path data with
             | .ok g2 => g2
             | .error _ => g)) ∧
    (set_process g_ex pname_ex (.list [.list [.int 5]]) = .ok g_ex_after ∧
      resolve_obj g_ex_after pname_ex = .ok (.int 5)) := by
  constructor
  · intro g pname data estr a path obj h1 h2 h3 h4 h5
    simp [set_process, h1, h2, h3, h4, h5]
    cases hsw : set_scalar_write g path data <;> simp [hsw]
  · exact ⟨rfl, rfl⟩

/-- Witness for claim C4: the general branch statement applied at the
concrete example graph and path. -/
theorem set_process_scalar_write_spec_witness :
    set_process g_ex pname_ex (.list [.list [.int 5]]) =
      .ok (match set_scalar_write g_ex path_ex (.list [.list [.int 5]]) with
           | .ok g2 => g2
           | .error _ => g_ex) :=
  set_process_scalar_write_spec.1 g_ex pname_ex (.list [.list [.int 5]])
    ("bpy.data.texts[\"Foo\"].count".data) ast_ex path_ex (.int 0)
    rfl rfl rfl rfl rfl

theorem except_error_cast (A B : Type) {e1 e : PyErr}
    (h : (Except.error e1 : Except PyErr A) = Except.error e) :
    (Except.error e1 : Except PyErr B) = Except.error e := by
  injection h with he
  rw [he]

/-- Claim C5 (amended): within the set node's `process`, only the write
conversion is guarded: every error raised inside the try block is swallowed
(`process` returns normally, the graph possibly unchanged), but a failure
of alias expansion, parsing or path resolution escapes the `process` method
unhandled — the module catches resolution failures only in `verify_prop`. -/
theorem set_process_error_containment :
    (∀ (g : Globals) (pname : List Char) (data : Py) (e : PyErr),
        set_process g pname data = .error e → resolve_obj g pname = .error e) ∧
    (∀ (g : Globals) (pname : List Char) (data : Py) (item : Py),
        resolve_obj g pname = .ok item →
        ∃ g2, set_process g pname data = .ok g2) := by
  constructor
  · intro g pname data e h
    unfold set_process at h
    unfold resolve_obj
    cases h1 : apply_alias pname with
    | error e1 =>
      simp only [h1] at h ⊢
      exact except_error_cast Globals Py h
    | ok estr =>
      simp only [h1] at h ⊢
      cases h2 : ast_parse_expr estr with
      | error e2 =>
        simp only [h2] at h ⊢
        exact except_error_cast Globals Py h
      | ok a =>
        simp only [h2] at h ⊢
        cases h3 : parse_to_path a with
        | error e3 =>
          simp only [h3] at h ⊢
          exact except_error_cast Globals Py h
        | ok popt =>
          simp only [h3] at h ⊢
          cases popt with
          | none => exact except_error_cast Globals Py h
          | some path =>
            cases h4 : get_object g path with
            | error e4 =>
              simp only [h4] at h ⊢
              exact except_error_cast Globals Py h
            | ok obj =>
              simp only [h4] at h
              cases ha : (if is_scalar_target obj then set_scalar_write g path data
                  else globals_update g path fun o => assign_data o data) with
              | ok g2 => simp [ha] at h
              | error e5 => simp [ha] at h
  · intro g pname data item h
    unfold resolve_obj at h
    unfold set_process
    cases h1 : apply_alias pname with
    | error e1 => simp only [h1] at h; exact absurd h (by simp)
    | ok estr =>
      simp only [h1] at h ⊢
      cases h2 : ast_parse_expr estr with
      | error e2 => simp only [h2] at h; exact absurd h (by simp)
      | ok a =>
        simp only [h2] at h ⊢
        cases h3 : parse_to_path a with
        | error e3 => simp only [h3] at h; exact absurd h (by simp)
        | ok popt =>
          simp only [h3] at h ⊢
          cases popt with
          | none => exact absurd h (by simp)
          | some path =>
            cases h4 : get_object g path with
            | error e4 => simp only [h4] at h; exact absurd h (by simp)
            | ok obj =>
              simp only [h4]
              cases ha : (if is_scalar_target obj then set_scalar_write g path data
                  else globals_update g path fun o => assign_data o data) with
              | ok g2 => exact ⟨g2, by simp [ha]⟩
              | error e5 => exact ⟨g, by simp [ha]⟩

/-- Witness for claim C5: an escaping resolution error is indeed a
resolution error of the same kind. -/
theorem set_process_error_containment_witness :
    resolve_obj ([] : Globals) ("zzz".data) = .error .nameError :=
  set_process_error_containment.1 [] ("zzz".data) (.list []) .nameError rfl

/-- Counterexample for claim C5 as stated: with an unresolvable property
path, the set node's `process` raises a NameError that escapes the method —
the failure is not handled inside the module's `process`. -/
theorem set_process_resolution_error_escapes_cex :
    set_process ([] : Globals) ("zzz".data) (.list []) = .error .nameError := rfl

/-- Claim C6: on every edit of the property path, `verify_prop` attempts
resolution; on failure it sets `bad_prop` and stops — no socket change, no
update propagation; on success it clears `bad_prop`, reconfigures the
relevant socket (the get node's first output / the set node's first input)
to the classified type whenever a classification is produced, and
propagates the network update notification (`updateNode`, the Bool). -/
theorem verify_prop_transitions (g : Globals) (pname : List Char)
    (gs : GetState) (ss : SetState) :
    ((∃ e, resolve_obj g pname = .error e) →
        get_verify_prop g pname gs = .ok ({ gs with bad_prop := true }, false) ∧
        set_verify_prop g pname ss = .ok ({ ss with bad_prop := true }, false)) ∧
    (∀ item, resolve_obj g pname = .ok item →
        get_verify_prop g pname gs =
          .ok ({ bad_prop := false,
                 outputs := socket_reconfig (type_assesment_item item) gs.outputs },
               true) ∧
        (∀ t, type_assesment_item item = some t →
            (socket_reconfig (type_assesment_item item) gs.outputs).head? = some t) ∧
        (set_verify_prop g pname ss =
          .ok ({ bad_prop := false,
                 inputs := set_socket_reconfig (type_assesment_item item)
                             (prop_assesment_item item) ss.inputs },
               true) ∧
         (∀ t, type_assesment_item item = some t →
            ((set_socket_reconfig (type_assesment_item item)
                (prop_assesment_item item) ss.inputs).head?).map SetSock.stype =
              some t))) := by
  constructor
  · rintro ⟨e, he⟩
    exact ⟨by simp [get_verify_prop, he], by simp [set_verify_prop, he]⟩
  · intro item h
    refine ⟨?_, ?_, ?_, ?_⟩
    · simp [get_verify_prop, get_execute_inside_throttle, type_assesment, h]
    · intro t ht
      cases houts : gs.outputs <;> simp [socket_reconfig, ht]
    · simp [set_verify_prop, set_execute_inside_throttle, type_assesment,
        prop_assesment, h]
    · intro t ht
      simp only [ht, set_socket_reconfig]
      by_cases hv : t = ("SvVerticesSocket".data)
      · cases ss.inputs <;>
          simp [set_socket_replace, set_socket_vertex_fix, hv]
      · cases ss.inputs <;>
          simp [set_socket_replace, set_socket_vertex_fix, hv]

/-- Witness for claim C6: the success branch at the concrete example graph
(the resolved object is the int 0, classified as a strings socket). -/
theorem verify_prop_transitions_witness :
    get_verify_prop g_ex pname_ex ⟨false, []⟩ =
      .ok ({ bad_prop := false,
             outputs := socket_reconfig (type_assesment_item (.int 0)) [] }, true) ∧
    (∀ t, type_assesment_item (.int 0) = some t →
        (socket_reconfig (type_assesment_item (.int 0)) []).head? = some t) ∧
    (set_verify_prop g_ex pname_ex ⟨false, []⟩ =
      .ok ({ bad_prop := false,
             inputs := set_socket_reconfig (type_assesment_item (.int 0))
                         (prop_assesment_item (.int 0)) [] }, true) ∧
     (∀ t, type_assesment_item (.int 0) = some t →
        ((set_socket_reconfig (type_assesment_item (.int 0))
            (prop_assesment_item (.int 0)) []).head?).map SetSock.stype = some t)) :=
  (verify_prop_transitions g_ex pname_ex ⟨false, []⟩ ⟨false, []⟩).2 (.int 0) rfl

/-- Claim C9: a resolved object whose runtime type is not in the fixed
`types` table and which does not satisfy the color-array heuristic
classifies to no socket kind, and the get node's
`execute_inside_throttle` then leaves the existing socket configuration
untouched. -/
theorem type_assesment_none_keeps_sockets (g : Globals) (pname : List Char)
    (item : Py) (outs : List (List Char))
    (hres : resolve_obj g pname = .ok item)
    (htab : types_get item = none)
    (hcol : is_probably_color item = false) :
    type_assesment g pname = .ok none ∧
    get_execute_inside_throttle g pname outs = .ok outs := by
  have hcls : type_assesment_item item = none := by
    simp [type_assesment_item, htab, hcol]
  refine ⟨by simp [type_assesment, hres, hcls], ?_⟩
  simp [get_execute_inside_throttle, type_assesment, hres, hcls, socket_reconfig]

/-- Witness for claim C9: `bpy.data` bound to a plain empty list (type not
in the table, not a color array) with one pre-existing color socket. -/
theorem type_assesment_none_keeps_sockets_witness :
    type_assesment g_small ("data".data) = .ok none ∧
    get_execute_inside_throttle g_small ("data".data) [("SvColorSocket".data)] =
      .ok [("SvColorSocket".data)] :=
  type_assesment_none_keeps_sockets g_small ("data".data) (.list [])
    [("SvColorSocket".data)] rfl rfl rfl

end GetSetPropMK2
